import Mathlib

/-
Verification development for the Position and Risk Core of the
phase-3-trading-system repository.

The Python sources are shallowly embedded:
  - Python strings become `List Char` (named `Str` below), so that the
    character-level operations of `trading_bot/utils/symbol_utils.py`
    (membership of a separator, split, suffix match) are directly
    computable and provable.
  - Python floats (prices, amounts, balances) become rationals.
  - `datetime` values become natural-number timestamps (seconds); every
    operation that reads the clock takes an explicit `now` argument.
  - Python dicts keyed by symbol become association lists
    `List (Str x value)` in insertion order, mirroring the iteration
    order of a Python dict.
  - Exchange calls are modelled by an `ExchangeView` record holding the
    outcome of each external call for the cycle under consideration;
    `none` stands for the call raising an exception (which the source
    catches), `some` for a successful response.
-/

set_option maxRecDepth 4000

namespace TradingBot

/-- Python strings are embedded as lists of characters. -/
abbrev Str := List Char

/-- Embedding of Python `str.lower()` as used by the sources. -/
def strLower (s : Str) : Str := s.map Char.toLower

/-- Embedding of Python `str.split(sep)` for a one-character separator:
`splitOnC c s` returns the (non-empty) list of segments of `s` between
occurrences of `c`, like `"a:b".split(":") == ["a", "b"]`. -/
def splitOnAux (c : Char) : Str → Str → List Str
  | [], acc => [acc.reverse]
  | x :: xs, acc =>
    if x == c then acc.reverse :: splitOnAux c xs []
    else splitOnAux c xs (x :: acc)

/-- See `splitOnAux`. -/
def splitOnC (c : Char) (s : Str) : List Str := splitOnAux c s []

/-- Embedding of Python `s.endswith(q)`: the last `q.length` characters of
`s` equal `q`.  (If `q` is longer than `s` the drop leaves all of `s`,
whose length differs from that of `q`, so the comparison is `false`.) -/
def endswith (s q : Str) : Bool := s.drop (s.length - q.length) == q

/-- `trading_bot/utils/symbol_utils.py` line 46: the fixed priority list of
known quote currencies tried as suffixes. -/
def quote_currencies : List Str :=
  ["USDT".data, "USD".data, "BTC".data, "ETH".data, "BNB".data,
   "BUSD".data, "USDC".data]

/-- `symbol_utils.py` lines 49-55: walk the quote-currency list; on the
first suffix match return `base/quote`; if none matches, append the
default quote. -/
def tryQuotes (qs : List Str) (symbol default_quote : Str) : Str :=
  match qs with
  | [] => symbol ++ '/' :: default_quote
  | q :: rest =>
    if endswith symbol q then
      symbol.take (symbol.length - q.length) ++ '/' :: q
    else tryQuotes rest symbol default_quote

/-- `symbol_utils.py` lines 26-55, the body of `normalize_symbol` after the
`None` check: slash means already canonical; otherwise split on a colon or
hyphen separator (`parts[0]` and `parts[1] if len(parts) > 1 else
default_quote` become `headD` and `getD 1`); otherwise fall back to the
quote-suffix scan. -/
def normalizeStr (symbol : Str) (default_quote : Str) : Str :=
  if '/' ∈ symbol then symbol
  else if ':' ∈ symbol then
    (splitOnC ':' symbol).headD [] ++ '/' :: (splitOnC ':' symbol).getD 1 default_quote
  else if '-' ∈ symbol then
    (splitOnC '-' symbol).headD [] ++ '/' :: (splitOnC '-' symbol).getD 1 default_quote
  else tryQuotes quote_currencies symbol default_quote

/-- `symbol_utils.py` lines 3-55, `normalize_symbol(symbol, default_quote)`.
The argument is an `Option Str` because the Python function is also invoked
with `None` (lines 22-24 return the empty string for it). -/
def normalize_symbol (symbol : Option Str) (default_quote : Str) : Str :=
  match symbol with
  | none => []
  | some s => normalizeStr s default_quote

/-- `normalize_symbol` applied with the default quote currency `USDT`, the
form in which every other module of the repository calls it. -/
def nsym (s : Str) : Str := normalize_symbol (some s) ("USDT".data)

/-- `trading_bot/models/data_models.py` lines 64-78, the `Position`
dataclass.  `entry_time` is an optional timestamp as in the source. -/
structure Position where
  symbol : Str
  side : Str
  amount : ℚ
  entry_price : ℚ
  current_price : ℚ
  unrealized_pnl : ℚ
  realized_pnl : ℚ
  entry_time : Option ℕ
  max_price : ℚ
  min_price : ℚ
deriving DecidableEq

instance : Inhabited Position :=
  ⟨{ symbol := [], side := [], amount := 0, entry_price := 0,
     current_price := 0, unrealized_pnl := 0, realized_pnl := 0,
     entry_time := none, max_price := 0, min_price := 0 }⟩

/-- `data_models.py` lines 80-87, `Position.__post_init__`: zero watermarks
are initialized from the current price and a missing `entry_time` is set to
the construction time `now`. -/
def Position.postInit (p : Position) (now : ℕ) : Position :=
  let p := if p.max_price = 0 then { p with max_price := p.current_price } else p
  let p := if p.min_price = 0 then { p with min_price := p.current_price } else p
  if p.entry_time = none then { p with entry_time := some now } else p

/-- `data_models.py` lines 109-126, `Position.update_price`: set the
current price, widen the watermarks (the min watermark is also reseeded
when it is still zero), then recompute the unrealized PnL from the side. -/
def Position.update_price (p : Position) (price : ℚ) : Position :=
  let p := { p with current_price := price }
  let p := if p.max_price < price then { p with max_price := price } else p
  let p := if price < p.min_price ∨ p.min_price = 0 then { p with min_price := price } else p
  if strLower p.side = "long".data then
    { p with unrealized_pnl := (p.current_price - p.entry_price) * p.amount }
  else
    { p with unrealized_pnl := (p.entry_price - p.current_price) * p.amount }

/-- `data_models.py` lines 128-147, `Position.current_drawdown_percentage`:
distance of the current price from the relevant watermark, `0` when that
watermark is not positive. -/
def Position.current_drawdown_percentage (p : Position) : ℚ :=
  if strLower p.side = "long".data then
    if p.max_price ≤ 0 then 0 else (p.max_price - p.current_price) / p.max_price
  else
    if p.min_price ≤ 0 then 0 else (p.current_price - p.min_price) / p.min_price

/-- A sequence of `update_price` calls, most recent last. -/
def applyPrices (p : Position) (prices : List ℚ) : Position :=
  prices.foldl Position.update_price p

/-- One entry of the dict returned by `fetch_balance`: the `free` amount of
a currency.  `none` stands for a value that `float(...)` cannot coerce
(the sources skip such entries, or fall back to `0` where they use
`.get("free", 0)` defensively). -/
structure BalanceEntry where
  free : Option ℚ
deriving DecidableEq

/-- One entry of the list returned by `fetch_positions`.  `contracts` is
`none` when the raw field cannot be coerced to a float (the tracker skips
the entry, `validate_signal` and `calculate_position_size` have the
resulting exception caught by their blanket handlers); `markPrice` is
`none` when the field is absent (the tracker defaults it to `0`, the
sizing code skips the notional reconstruction). -/
structure FuturesPos where
  symbol : Str
  contracts : Option ℚ
  entryPrice : ℚ
  markPrice : Option ℚ
  side : Str
  unrealizedPnl : ℚ
  notional : ℚ
deriving DecidableEq

/-- The outcome of every external exchange call during one cycle.
`has_fetch_positions` models `hasattr(exchange, "fetch_positions")`;
`fetch_positions_res = none` / `fetch_balance_res = none` model those
calls raising; `ticker_last sym = none` models `fetch_ticker(sym)`
raising or returning an unusable payload, `some v` the coerced value of
its `last` field (`0` when the field is missing or falsy);
`entry_from_trades sym amt` models the result of
`PositionTracker._get_entry_price_from_trades(sym, amt)` (data_models.py
lines 313-361), which returns `0` whenever the trade history is
unavailable or holds no buy fills. -/
structure ExchangeView where
  has_fetch_positions : Bool
  fetch_positions_res : Option (List FuturesPos)
  fetch_balance_res : Option (List (Str × BalanceEntry))
  ticker_last : Str → Option ℚ
  entry_from_trades : Str → ℚ → ℚ

/-- Python dict lookup `d.get(k)` on an association list. -/
def lookupD {α : Type} (k : Str) (d : List (Str × α)) : Option α :=
  match d with
  | [] => none
  | kv :: rest => if kv.1 == k then some kv.2 else lookupD k rest

/-- Python dict membership `k in d`. -/
def dictHasKey {α : Type} (k : Str) (d : List (Str × α)) : Bool :=
  d.any (fun kv => kv.1 == k)

/-- Python dict assignment `d[k] = v`: replace the value in place if the
key exists (keeping the insertion order of a Python dict), append
otherwise. -/
def dictInsert {α : Type} (k : Str) (v : α) (d : List (Str × α)) : List (Str × α) :=
  if dictHasKey k d then
    d.map (fun kv => if kv.1 == k then (k, v) else kv)
  else d ++ [(k, v)]

/-- `data_models.py` lines 220-245: the mutable state of
`PositionTracker` (`_positions`, `_closed_positions`, `_last_update`).
Persistence to disk is modelled separately by `saved_closed_positions`. -/
structure TrackerState where
  positions : List (Str × Position)
  closed_positions : List Position
  last_update : Option ℕ
deriving DecidableEq

/-- `data_models.py` line 237: `_update_interval = timedelta(seconds=5)`. -/
def update_interval : ℕ := 5

/-- `data_models.py` lines 247-256, `PositionTracker._should_update`. -/
def should_update (st : TrackerState) (now : ℕ) : Bool :=
  match st.last_update with
  | none => true
  | some t => update_interval < now - t

/-- `data_models.py` lines 444-447: quote currencies whose balances are
never treated as spot positions. -/
def quote_skip : List Str :=
  ["USDT".data, "USD".data, "BUSD".data, "USDC".data]

/-- `data_models.py` lines 385-432: processing of one entry of the
`fetch_positions` response inside `update_positions`.  A non-coercible
`contracts` field or a non-positive size skips the entry; otherwise the
previously tracked `Position` (if any) is updated in place, preserving
its entry metadata and watermarks, and a brand-new `Position` is created
otherwise.  As in the source, the symbol is normalized twice (lines 391
and 411). -/
def futuresStep (existing : List (Str × Position)) (now : ℕ)
    (acc : List (Str × Position)) (pd : FuturesPos) : List (Str × Position) :=
  let symbol := nsym pd.symbol
  match pd.contracts with
  | none => acc
  | some contracts =>
    if 0 < contracts then
      let mark_price := pd.markPrice.getD 0
      let side := strLower pd.side
      let normalized_symbol := nsym symbol
      match lookupD normalized_symbol existing with
      | some position =>
        let position := position.update_price mark_price
        let position := { position with amount := contracts,
                                        unrealized_pnl := pd.unrealizedPnl }
        dictInsert normalized_symbol position acc
      | none =>
        dictInsert normalized_symbol
          (Position.postInit
            { symbol := normalized_symbol, side := side, amount := contracts,
              entry_price := pd.entryPrice, current_price := mark_price,
              unrealized_pnl := pd.unrealizedPnl, realized_pnl := 0,
              entry_time := some now, max_price := 0, min_price := 0 } now) acc
    else acc

/-- `data_models.py` lines 445-509: processing of one balance entry inside
`update_positions`.  Quote currencies are skipped; a non-coercible or
non-positive free amount skips the entry; a failing or non-positive
ticker price skips the entry; otherwise a previously tracked `Position`
is updated in place and a new one is created from the reconstructed
entry price otherwise. -/
def spotStep (ex : ExchangeView) (existing : List (Str × Position)) (now : ℕ)
    (acc : List (Str × Position)) (ent : Str × BalanceEntry) : List (Str × Position) :=
  let currency := ent.1
  if currency ∈ quote_skip then acc
  else
    match ent.2.free with
    | none => acc
    | some free_amount =>
      if 0 < free_amount then
        let symbol := currency ++ '/' :: "USDT".data
        match ex.ticker_last symbol with
        | none => acc
        | some current_price =>
          if 0 < current_price then
            let normalized_symbol := nsym symbol
            match lookupD normalized_symbol existing with
            | some position =>
              let position := position.update_price current_price
              let position := { position with amount := free_amount }
              dictInsert normalized_symbol position acc
            | none =>
              let entry_price := ex.entry_from_trades symbol free_amount
              let entry_price := if entry_price ≤ 0 then current_price else entry_price
              dictInsert normalized_symbol
                (Position.postInit
                  { symbol := normalized_symbol, side := "long".data,
                    amount := free_amount, entry_price := entry_price,
                    current_price := current_price, unrealized_pnl := 0,
                    realized_pnl := 0, entry_time := some now,
                    max_price := 0, min_price := 0 } now) acc
          else acc
      else acc

/-- `data_models.py` lines 363-525, `PositionTracker.update_positions`:
when a refresh is due, snapshot the tracked positions, rebuild the active
set from the futures feed (lines 381-434; a raising `fetch_positions`
leaves it empty) and the spot balances (lines 436-509; a raising
`fetch_balance` degrades to an empty dict), then move every snapshot
symbol absent from the rebuilt set into the closed history (lines
511-516) and stamp the refresh time. -/
def update_positions (st : TrackerState) (ex : ExchangeView) (now : ℕ) : TrackerState :=
  if should_update st now then
    let existing := st.positions
    let ps : List (Str × Position) := []
    let ps :=
      if ex.has_fetch_positions then
        match ex.fetch_positions_res with
        | some exchange_positions => exchange_positions.foldl (futuresStep existing now) ps
        | none => ps
      else ps
    let balance := ex.fetch_balance_res.getD []
    let ps := balance.foldl (spotStep ex existing now) ps
    let newly_closed := (existing.filter (fun kv => ! dictHasKey kv.1 ps)).map Prod.snd
    { positions := ps,
      closed_positions := st.closed_positions ++ newly_closed,
      last_update := some now }
  else st

/-- `data_models.py` lines 580-601, `PositionTracker.get_all_positions`:
the active positions whose value exceeds one dollar; smaller balances are
dust and filtered out. -/
def get_all_positions (st : TrackerState) : List Position :=
  (st.positions.map Prod.snd).filter
    (fun position => 1 < position.amount * position.current_price)

/-- `data_models.py` lines 603-610, `PositionTracker.get_closed_positions`:
returns the in-memory closed history as is. -/
def get_closed_positions (st : TrackerState) : List Position :=
  st.closed_positions

/-- `data_models.py` lines 297-311, the `closed_positions` array written by
`PositionTracker._save_positions`: only the last 100 entries are
persisted (`self._closed_positions[-100:]`). -/
def saved_closed_positions (st : TrackerState) : List Position :=
  st.closed_positions.drop (st.closed_positions.length - 100)

/-- `data_models.py` lines 612-636, `PositionTracker.record_position`:
store a brand-new `Position` under the normalized symbol (replacing any
existing entry), with `entry_time` the current time and watermarks seeded
from the given current price by `__post_init__`. -/
def record_position (st : TrackerState) (symbol side : Str)
    (amount entry_price current_price : ℚ) (now : ℕ) : TrackerState :=
  let normalized_symbol := nsym symbol
  let position :=
    Position.postInit
      { symbol := normalized_symbol, side := side, amount := amount,
        entry_price := entry_price, current_price := current_price,
        unrealized_pnl := 0, realized_pnl := 0, entry_time := some now,
        max_price := 0, min_price := 0 } now
  { st with positions := dictInsert normalized_symbol position st.positions }

/-- `data_models.py` lines 638-654, `PositionTracker.close_position`:
append the tracked position (if any) to the closed history and delete it
from the active dict. -/
def close_position (st : TrackerState) (symbol : Str) : TrackerState :=
  let normalized_symbol := nsym symbol
  match lookupD normalized_symbol st.positions with
  | some p =>
    { st with positions := st.positions.filter (fun kv => kv.1 != normalized_symbol),
              closed_positions := st.closed_positions ++ [p] }
  | none => st

/-- The two keys of `Signal.params` that the risk manager reads
(`basic_risk_manager.py` lines 198-201). -/
structure SignalParams where
  market_type : Option Str
  leverage : Option ℚ
deriving DecidableEq

/-- `data_models.py` lines 177-192, the `Signal` dataclass. -/
structure Signal where
  symbol : Str
  timestamp : ℕ
  signal_type : Str
  price : ℚ
  strategy_name : Str
  params : SignalParams
  strength : ℚ
deriving DecidableEq

/-- `trading_bot/risk/basic_risk_manager.py` lines 27-59,
`BasicRiskManager.validate_signal`: close signals always validate; for
the rest, when the exchange exposes `fetch_positions` and the call
succeeds with coercible `contracts` fields, reject only when the number
of entries with non-zero contracts has reached `max_open_trades`; any
exception in that check is caught and the signal passes (lines 55-57).
The interpolated count of the rejection message is elided. -/
def validate_signal (ex : ExchangeView) (max_open_trades : ℕ) (signal : Signal) :
    Bool × Str :=
  if signal.signal_type = "close".data then
    (true, "Close signals are always valid".data)
  else
    if ex.has_fetch_positions then
      match ex.fetch_positions_res with
      | none => (true, "Signal validated".data)
      | some positions =>
        if positions.all (fun p => p.contracts.isSome) then
          let open_positions := positions.filter (fun p => 0 < |p.contracts.getD 0|)
          if max_open_trades ≤ open_positions.length then
            (false, "Maximum number of open trades reached".data)
          else (true, "Signal validated".data)
        else (true, "Signal validated".data)
    else (true, "Signal validated".data)

/-- `basic_risk_manager.py` lines 127-159: the spot half of the active
count inside `calculate_position_size`.  For every non-quote currency
with a positive free amount, its USD value is the amount times the ticker
price when the ticker call succeeds, the amount itself as the 1:1
fallback when it raises; only values above one dollar count. -/
def countSpotStep (ex : ExchangeView) (quote_currency : Str) (acc : ℕ)
    (ent : Str × BalanceEntry) : ℕ :=
  if ent.1 ≠ quote_currency ∧ (0 : ℚ) < ent.2.free.getD 0 then
    let currency_amount : ℚ := ent.2.free.getD 0
    let usd_value : ℚ :=
      match ex.ticker_last (ent.1 ++ '/' :: quote_currency) with
      | some last_price => currency_amount * last_price
      | none => currency_amount
    if (1 : ℚ) < usd_value then acc + 1 else acc
  else acc

/-- See `countSpotStep`. -/
def count_spot_active (ex : ExchangeView) (balance : List (Str × BalanceEntry))
    (quote_currency : Str) : ℕ :=
  balance.foldl (countSpotStep ex quote_currency) 0

/-- `basic_risk_manager.py` lines 161-178: the futures half of the active
count.  A missing notional is reconstructed from the mark price when that
field is present; only positions with positive contracts and a notional
above one dollar count. -/
def countFuturesStep (acc : ℕ) (position : FuturesPos) : ℕ :=
  let contracts : ℚ := position.contracts.getD 0
  let notional : ℚ := position.notional
  let notional : ℚ :=
    if notional = 0 ∧ 0 < contracts then
      match position.markPrice with
      | some mark_price => contracts * mark_price
      | none => notional
    else notional
  if 0 < contracts ∧ 1 < notional then acc + 1 else acc

/-- See `countFuturesStep`. -/
def count_futures_active (ps : List FuturesPos) : ℕ :=
  ps.foldl countFuturesStep 0

/-- `basic_risk_manager.py` lines 124-182: the number of active non-dust
positions counted by `calculate_position_size`.  Any exception inside the
counting block — `fetch_positions` raising, or a non-coercible
`contracts` field — falls to the handler at lines 179-182 which resets
the count to `0`. -/
def count_active (ex : ExchangeView) (balance : List (Str × BalanceEntry))
    (quote_currency : Str) : ℕ :=
  if ex.has_fetch_positions then
    match ex.fetch_positions_res with
    | none => 0
    | some ps =>
      if ps.all (fun p => p.contracts.isSome) then
        count_spot_active ex balance quote_currency + count_futures_active ps
      else 0
  else count_spot_active ex balance quote_currency

/-- `basic_risk_manager.py` lines 101-210,
`BasicRiskManager.calculate_position_size`: a raising `fetch_balance` or
a symbol without a quote part returns `0` through the blanket handler
(lines 208-210); a non-positive free quote balance returns `0`;
otherwise the free balance is divided by
`max(1, max_open_trades - active)` and by the signal price, and the
result is scaled by the declared leverage for futures signals.  (Python
raises `ZeroDivisionError` on a zero signal price, which the handler
turns into `0`; rational division by zero yields `0` directly.) -/
def calculate_position_size (ex : ExchangeView) (max_open_trades : ℕ)
    (signal : Signal) : ℚ :=
  match ex.fetch_balance_res with
  | none => 0
  | some balance =>
    match splitOnC '/' signal.symbol with
    | _ :: quote_currency :: _ =>
      let available_balance := ((lookupD quote_currency balance).map
        (fun d => d.free.getD 0)).getD 0
      if available_balance ≤ 0 then 0
      else
        let active_positions := count_active ex balance quote_currency
        let remaining_positions : ℕ := max 1 (max_open_trades - active_positions)
        let amount_to_use := available_balance / (remaining_positions : ℚ)
        let position_size := amount_to_use / signal.price
        if signal.params.market_type.getD ("spot".data) = "futures".data ∧
            signal.params.leverage.isSome then
          position_size * (signal.params.leverage.getD 1)
        else position_size
    | _ => 0

/-- Modelled from the spec: `check_drawdown_limits` is missing from the
sources — `main.py` line 413 calls it on the risk manager and lines
179-188 wire up its `max_drawdown` configuration, but
`basic_risk_manager.py` defines no such method.  Spec section 4.3:
"`check_drawdown_limits() -> List[symbol]`: refreshes tracker, returns
every active (non-dust) position whose `drawdown_percentage >
max_drawdown`."  The refresh is the embedded
`PositionTracker.update_positions`, the non-dust view is the embedded
`get_all_positions`, and the comparison is strict. -/
def check_drawdown_limits (st : TrackerState) (ex : ExchangeView) (now : ℕ)
    (max_drawdown : ℚ) : List Str :=
  let st := update_positions st ex now
  ((get_all_positions st).filter
    (fun p => max_drawdown < p.current_drawdown_percentage)).map (fun p => p.symbol)

/- Helper lemmas shared by the claim theorems. -/

theorem slash_mem_tryQuotes (qs : List Str) (s dq : Str) :
    '/' ∈ tryQuotes qs s dq := by
  induction qs with
  | nil => simp [tryQuotes]
  | cons q rest ih =>
    rw [tryQuotes]
    split
    · exact List.mem_append_right _ (List.mem_cons_self _ _)
    · exact ih

theorem slash_mem_normalizeStr (s dq : Str) : '/' ∈ normalizeStr s dq := by
  rw [normalizeStr]
  split_ifs with h1 h2 h3
  · exact h1
  · exact List.mem_append_right _ (List.mem_cons_self _ _)
  · exact List.mem_append_right _ (List.mem_cons_self _ _)
  · exact slash_mem_tryQuotes _ _ _

theorem normalizeStr_of_slash_mem (s dq : Str) (h : '/' ∈ s) :
    normalizeStr s dq = s := by
  rw [normalizeStr, if_pos h]

theorem dictHasKey_cons {α : Type} (k : Str) (a : Str × α) (t : List (Str × α)) :
    dictHasKey k (a :: t) = ((a.1 == k) || dictHasKey k t) := by
  rw [dictHasKey, List.any_cons]; rfl

theorem lookupD_map_replace {α : Type} (k : Str) (v : α) (d : List (Str × α)) :
    dictHasKey k d = true →
    lookupD k (d.map (fun kv => if kv.1 == k then (k, v) else kv)) = some v := by
  induction d with
  | nil => intro h; exact Bool.noConfusion (show false = true from h)
  | cons a t ih =>
    intro h
    by_cases ha : (a.1 == k) = true
    · rw [List.map_cons, if_pos ha, lookupD]
      simp
    · rw [List.map_cons, if_neg ha, lookupD, if_neg ha]
      apply ih
      rw [dictHasKey_cons, Bool.eq_false_iff.mpr ha, Bool.false_or] at h
      exact h

theorem lookupD_append_new {α : Type} (k : Str) (v : α) (d : List (Str × α)) :
    dictHasKey k d = false → lookupD k (d ++ [(k, v)]) = some v := by
  induction d with
  | nil => intro _; rw [List.nil_append, lookupD]; simp
  | cons a t ih =>
    intro h
    rw [dictHasKey_cons, Bool.or_eq_false_iff] at h
    rw [List.cons_append, lookupD, if_neg (by rw [h.1]; exact Bool.noConfusion)]
    exact ih h.2

theorem lookupD_dictInsert {α : Type} (k : Str) (v : α) (d : List (Str × α)) :
    lookupD k (dictInsert k v d) = some v := by
  rw [dictInsert]
  by_cases h : dictHasKey k d = true
  · rw [if_pos h]; exact lookupD_map_replace k v d h
  · rw [if_neg h]
    exact lookupD_append_new k v d (Bool.eq_false_iff.mpr h)

theorem filter_true_eq {α : Type} (l : List α) :
    l.filter (fun _ => true) = l := by
  induction l with
  | nil => rfl
  | cons a t ih => simp [List.filter, ih]

theorem update_price_fields (p : Position) (price : ℚ) :
    (p.update_price price).current_price = price ∧
    (p.update_price price).max_price
      = (if p.max_price < price then price else p.max_price) ∧
    (p.update_price price).min_price
      = (if price < p.min_price ∨ p.min_price = 0 then price else p.min_price) := by
  obtain ⟨sym, sd, amt, ep, cp, up, rp, et, mx, mn⟩ := p
  simp only [Position.update_price]
  split_ifs <;> simp_all

theorem update_price_max_mono (p : Position) (price : ℚ) :
    p.max_price ≤ (p.update_price price).max_price := by
  rw [(update_price_fields p price).2.1]
  split_ifs <;> linarith

theorem update_price_min_mono (p : Position) (price : ℚ) (hmin : 0 < p.min_price) :
    (p.update_price price).min_price ≤ p.min_price := by
  rw [(update_price_fields p price).2.2]
  split_ifs with h
  · rcases h with h | h <;> linarith
  · linarith

theorem update_price_min_pos (p : Position) (price : ℚ) (hmin : 0 < p.min_price)
    (hpr : 0 < price) : 0 < (p.update_price price).min_price := by
  rw [(update_price_fields p price).2.2]
  split_ifs <;> linarith

theorem update_price_sandwich (p : Position) (price : ℚ) :
    (p.update_price price).min_price ≤ (p.update_price price).current_price ∧
    (p.update_price price).current_price ≤ (p.update_price price).max_price := by
  obtain ⟨h1, h2, h3⟩ := update_price_fields p price
  rw [h1, h2, h3]
  constructor
  · split_ifs with h
    · linarith
    · push_neg at h
      linarith [h.1]
  · split_ifs <;> linarith

theorem applyPrices_watermarks (p : Position) (prices : List ℚ)
    (hmin : 0 < p.min_price) (hpos : ∀ x ∈ prices, 0 < x) :
    (applyPrices p prices).min_price ≤ p.min_price ∧
    0 < (applyPrices p prices).min_price ∧
    p.max_price ≤ (applyPrices p prices).max_price := by
  induction prices generalizing p with
  | nil => exact ⟨le_refl _, hmin, le_refl _⟩
  | cons x xs ih =>
    have hx : 0 < x := hpos x (List.mem_cons_self _ _)
    have hxs : ∀ y ∈ xs, 0 < y := fun y hy => hpos y (List.mem_cons_of_mem _ hy)
    have hmin1 := update_price_min_pos p x hmin hx
    have hstep : applyPrices p (x :: xs) = applyPrices (p.update_price x) xs := rfl
    rw [hstep]
    obtain ⟨m1, m2, m3⟩ := ih (p.update_price x) hmin1 hxs
    exact ⟨le_trans m1 (update_price_min_mono p x hmin), m2,
           le_trans (update_price_max_mono p x) m3⟩

/-- The concrete long position used by the claims about watermark
behaviour: constructed as the tracker does, with watermarks seeded to the
current price `5` by `__post_init__`. -/
def pos_c5 : Position :=
  Position.postInit
    { symbol := "AAA/USDT".data, side := "long".data, amount := 1,
      entry_price := 5, current_price := 5, unrealized_pnl := 0,
      realized_pnl := 0, entry_time := some 0, max_price := 0,
      min_price := 0 } 0

/-- Claim C5, counterexample: `min_price` is NOT non-increasing over an
arbitrary sequence of `update_price` calls on a long position.  Starting
from watermarks `5`, the update with price `0` lowers `min_price` to `0`,
and the next update with price `3` then raises it from `0` back to `3`
through the `min_price == 0` reseed branch of `update_price`
(data_models.py line 119) — an increase along the sequence. -/
theorem update_price_min_watermark_counterexample :
    (applyPrices pos_c5 [0]).min_price = 0 ∧
    (applyPrices pos_c5 [0, 3]).min_price = 3 ∧
    ¬ (applyPrices pos_c5 [0, 3]).min_price ≤ (applyPrices pos_c5 [0]).min_price := by
  decide

/-- Claim C5 as amended: over any sequence of `update_price` calls on a
long position whose min watermark is positive and whose prices are all
positive (so the `min_price == 0` reseed branch never fires),
`max_price` is non-decreasing and `min_price` is non-increasing; and
unconditionally, after every single `update_price` call,
`max_price >= current_price >= min_price` holds. -/
theorem watermark_monotonicity_amended (p : Position) (prices : List ℚ)
    (_hside : strLower p.side = "long".data)
    (hmin : 0 < p.min_price) (hpos : ∀ x ∈ prices, 0 < x) :
    (applyPrices p prices).min_price ≤ p.min_price ∧
    p.max_price ≤ (applyPrices p prices).max_price ∧
    ∀ (q : Position) (price : ℚ),
      (q.update_price price).min_price ≤ (q.update_price price).current_price ∧
      (q.update_price price).current_price ≤ (q.update_price price).max_price := by
  obtain ⟨m1, _, m3⟩ := applyPrices_watermarks p prices hmin hpos
  exact ⟨m1, m3, fun q price => update_price_sandwich q price⟩

/-- Witness: the amended claim applied to the concrete position `pos_c5`
and the positive price sequence `[4, 6]`. -/
theorem watermark_monotonicity_amended_witness :
    (applyPrices pos_c5 [4, 6]).min_price ≤ pos_c5.min_price ∧
    pos_c5.max_price ≤ (applyPrices pos_c5 [4, 6]).max_price :=
  ⟨(watermark_monotonicity_amended pos_c5 [4, 6] (by decide) (by decide)
      (by decide)).1,
   (watermark_monotonicity_amended pos_c5 [4, 6] (by decide) (by decide)
      (by decide)).2.1⟩

/-- Claim C4: `normalize_symbol` is idempotent — for every string `s`,
`normalize(normalize(s)) == normalize(s)` — and confluent on the
spellings of a pair: `BTCUSDT`, `BTC/USDT`, `BTC-USDT` and `BTC:USDT`
all normalize to `BTC/USDT`.  (Idempotence holds because every result of
the normalizer contains a slash, so a second pass returns it through the
already-canonical branch.) -/
theorem normalize_symbol_idempotent_confluent :
    (∀ s : Str, nsym (nsym s) = nsym s) ∧
    nsym ("BTCUSDT".data) = "BTC/USDT".data ∧
    nsym ("BTC/USDT".data) = "BTC/USDT".data ∧
    nsym ("BTC-USDT".data) = "BTC/USDT".data ∧
    nsym ("BTC:USDT".data) = "BTC/USDT".data := by
  refine ⟨fun s => ?_, by decide, by decide, by decide, by decide⟩
  show normalizeStr (normalizeStr s _) _ = normalizeStr s _
  exact normalizeStr_of_slash_mem _ _ (slash_mem_normalizeStr s _)

/-- Claim C9, counterexample: `normalize_symbol` maps the empty string to
`"/USDT"`, not to the empty string — only `None` is special-cased at
`symbol_utils.py` lines 22-24; the empty string falls through every
separator and suffix test into the default-quote rule at line 55. -/
theorem normalize_symbol_empty_counterexample :
    normalize_symbol (some ("".data)) ("USDT".data) = "/USDT".data ∧
    "/USDT".data ≠ ("".data) := by decide

/-- Claim C9 as amended: `normalize_symbol` maps `None` to the empty
string (for any default quote), while the empty string is not
special-cased and maps to `"/USDT"` through the default-quote rule. -/
theorem normalize_symbol_none_empty_amended :
    (∀ dq : Str, normalize_symbol none dq = []) ∧
    nsym ("".data) = "/USDT".data :=
  ⟨fun _ => rfl, by decide⟩

/-- Claim C7: a position in the active map appears in
`get_all_positions()` if and only if `amount * current_price > 1`; and
appending a dust entry (value at most one dollar) to the active map
leaves `get_all_positions()` — hence every count derived from it —
unchanged. -/
theorem get_all_positions_dust_filter :
    (∀ (st : TrackerState) (p : Position),
       p ∈ get_all_positions st ↔
         p ∈ st.positions.map Prod.snd ∧ 1 < p.amount * p.current_price) ∧
    (∀ (st : TrackerState) (k : Str) (q : Position),
       q.amount * q.current_price ≤ 1 →
       get_all_positions { st with positions := st.positions ++ [(k, q)] }
         = get_all_positions st) := by
  constructor
  · intro st p
    simp [get_all_positions, List.mem_filter]
  · intro st k q h
    have hq : ¬ (1 < q.amount * q.current_price) := not_lt.mpr h
    simp [get_all_positions, List.filter_append, List.filter_cons, hq]

/-- A dust position: one unit worth half a dollar. -/
def pos_dust : Position :=
  { symbol := "EEE/USDT".data, side := "long".data, amount := 1,
    entry_price := 1, current_price := 1/2, unrealized_pnl := 0,
    realized_pnl := 0, entry_time := some 0, max_price := 1, min_price := 1/2 }

/-- Witness: the dust-invariance half of the claim applied to a concrete
tracker holding one real position, extended with a sub-dollar dust entry. -/
theorem get_all_positions_dust_filter_witness :
    pos_dust.amount * pos_dust.current_price ≤ 1 ∧
    get_all_positions
        { positions := [("AAA/USDT".data, pos_c5)] ++ [("EEE/USDT".data, pos_dust)],
          closed_positions := [], last_update := none }
      = get_all_positions
          { positions := [("AAA/USDT".data, pos_c5)],
            closed_positions := [], last_update := none } :=
  ⟨by norm_num [pos_dust],
   (get_all_positions_dust_filter).2
     { positions := [("AAA/USDT".data, pos_c5)],
       closed_positions := [], last_update := none }
     ("EEE/USDT".data) pos_dust (by norm_num [pos_dust])⟩

/-- A real (non-dust) position used by the closed-history claims. -/
def pos_c6 : Position :=
  { symbol := "CCC/USDT".data, side := "long".data, amount := 2,
    entry_price := 10, current_price := 10, unrealized_pnl := 0,
    realized_pnl := 0, entry_time := some 0, max_price := 10, min_price := 10 }

/-- A tracker whose in-memory closed history already holds 100 entries
and which still tracks one active position. -/
def st_c6 : TrackerState :=
  { positions := [("CCC/USDT".data, pos_c6)],
    closed_positions := List.replicate 100 pos_c6,
    last_update := none }

/-- Claim C6, counterexample: the in-memory closed history is NOT capped
at 100.  `close_position` appends without truncating (data_models.py
lines 647-649), so after closing a position on a tracker whose history
already holds 100 entries, `get_closed_positions()` returns 101
positions. -/
theorem closed_history_cap_counterexample :
    (get_closed_positions st_c6).length = 100 ∧
    (get_closed_positions (close_position st_c6 ("CCC/USDT".data))).length = 101 := by
  decide

/-- Claim C6 as amended: the 100-entry cap applies to the persisted
snapshot — `_save_positions` writes only the last 100 closed positions
(and `_load_positions` restores at most 100) — while the in-memory
closed list only ever grows by appending, so `get_closed_positions()`
can return more than 100 entries within a session. -/
theorem closed_history_cap_amended :
    (∀ st : TrackerState, (saved_closed_positions st).length ≤ 100) ∧
    (∀ (st : TrackerState) (sym : Str),
       (close_position st sym).closed_positions = st.closed_positions ∨
       ∃ p, lookupD (nsym sym) st.positions = some p ∧
            (close_position st sym).closed_positions = st.closed_positions ++ [p]) := by
  constructor
  · intro st
    rw [saved_closed_positions, List.length_drop]
    omega
  · intro st sym
    cases h : lookupD (nsym sym) st.positions with
    | none => left; simp [close_position, h]
    | some p => right; exact ⟨p, rfl, by simp [close_position, h]⟩

/-- Claim C10: `record_position` on a symbol that already has an active
position silently replaces it — the lookup afterwards returns a
brand-new `Position` whose `entry_time` is the recording time and whose
watermarks are reset to the given current price — and the closed-position
history is untouched (the previous object is discarded, not archived). -/
theorem record_position_replaces (st : TrackerState) (sym side : Str)
    (amount entry_price current_price : ℚ) (now : ℕ) (old : Position)
    (_hold : lookupD (nsym sym) st.positions = some old) :
    lookupD (nsym sym)
        (record_position st sym side amount entry_price current_price now).positions
      = some { symbol := nsym sym, side := side, amount := amount,
               entry_price := entry_price, current_price := current_price,
               unrealized_pnl := 0, realized_pnl := 0, entry_time := some now,
               max_price := current_price, min_price := current_price } ∧
    (record_position st sym side amount entry_price current_price now).closed_positions
      = st.closed_positions := by
  refine ⟨?_, rfl⟩
  have h := lookupD_dictInsert (nsym sym)
    (Position.postInit
      { symbol := nsym sym, side := side, amount := amount,
        entry_price := entry_price, current_price := current_price,
        unrealized_pnl := 0, realized_pnl := 0, entry_time := some now,
        max_price := 0, min_price := 0 } now) st.positions
  have hpost :
      Position.postInit
        { symbol := nsym sym, side := side, amount := amount,
          entry_price := entry_price, current_price := current_price,
          unrealized_pnl := 0, realized_pnl := 0, entry_time := some now,
          max_price := 0, min_price := 0 } now
      = { symbol := nsym sym, side := side, amount := amount,
          entry_price := entry_price, current_price := current_price,
          unrealized_pnl := 0, realized_pnl := 0, entry_time := some now,
          max_price := current_price, min_price := current_price } := by
    simp [Position.postInit]
  rw [record_position]
  rw [hpost] at h
  exact h

/-- A tracker with an active position under the key `DDD/USDT`, used to
witness the replacement behaviour of `record_position`. -/
def st_c10 : TrackerState :=
  { positions := [("DDD/USDT".data, pos_c6)],
    closed_positions := [pos_c5], last_update := none }

/-- Witness: recording over the already-tracked symbol `DDD/USDT`
replaces the stored position with a fresh one (entry time `42`,
watermarks `8`) and leaves the closed history untouched. -/
theorem record_position_replaces_witness :
    lookupD (nsym ("DDD/USDT".data))
        (record_position st_c10 ("DDD/USDT".data) ("long".data) 3 7 8 42).positions
      = some { symbol := nsym ("DDD/USDT".data), side := "long".data, amount := 3,
               entry_price := 7, current_price := 8, unrealized_pnl := 0,
               realized_pnl := 0, entry_time := some 42, max_price := 8,
               min_price := 8 } ∧
    (record_position st_c10 ("DDD/USDT".data) ("long".data) 3 7 8 42).closed_positions
      = [pos_c5] :=
  record_position_replaces st_c10 ("DDD/USDT".data) ("long".data) 3 7 8 42
    pos_c6 (by decide)

/-- A previously tracked spot position (value well above one dollar),
with distinctive entry metadata and watermarks. -/
def pos_c1 : Position :=
  { symbol := "BTC/USDT".data, side := "long".data, amount := 1,
    entry_price := 100, current_price := 100, unrealized_pnl := 0,
    realized_pnl := 0, entry_time := some 1, max_price := 120, min_price := 90 }

/-- A tracker that holds `pos_c1` and is due for a refresh. -/
def st_c1 : TrackerState :=
  { positions := [("BTC/USDT".data, pos_c1)],
    closed_positions := [], last_update := none }

/-- A cycle on which the balance fetch raises, on a spot-only exchange
(no `fetch_positions` attribute). -/
def ex_c1 : ExchangeView :=
  { has_fetch_positions := false, fetch_positions_res := none,
    fetch_balance_res := none, ticker_last := fun _ => none,
    entry_from_trades := fun _ _ => 0 }

/-- Claim C1, counterexample: when the balance fetch raises for one cycle
while the tracked position's exposure is unchanged on the exchange, the
previously tracked position does NOT remain in the active set — the
refresh rebuilds the active set from the (empty) degraded data, finds the
snapshot symbol absent from it, and moves the position into closed
history that same cycle (data_models.py lines 440-442 and 511-516). -/
theorem balance_failure_closes_tracked_counterexample :
    (update_positions st_c1 ex_c1 10).positions = [] ∧
    (update_positions st_c1 ex_c1 10).closed_positions = [pos_c1] := by decide

/-- Claim C1 as amended: a raising balance fetch never aborts
`update_positions` (the refresh completes and stamps `last_update`), but
with no futures data either, every previously tracked position is moved —
as the same unmutated `Position` object, entry time and watermarks
intact inside it — into the closed history, and the active set is left
empty; the positions do not remain active that cycle. -/
theorem balance_failure_degradation_amended (st : TrackerState) (ex : ExchangeView)
    (now : ℕ) (h : should_update st now = true)
    (hb : ex.fetch_balance_res = none)
    (hf : ex.has_fetch_positions = false) :
    (update_positions st ex now).positions = [] ∧
    (update_positions st ex now).closed_positions
      = st.closed_positions ++ st.positions.map Prod.snd ∧
    (update_positions st ex now).last_update = some now := by
  rw [update_positions, if_pos h]
  simp [hb, hf, dictHasKey, filter_true_eq]

/-- Witness: the amended claim applied to the tracker `st_c1` and the
failing cycle `ex_c1`. -/
theorem balance_failure_degradation_amended_witness :
    should_update st_c1 10 = true ∧
    (update_positions st_c1 ex_c1 10).closed_positions = [] ++ [pos_c1] :=
  ⟨by decide,
   (balance_failure_degradation_amended st_c1 ex_c1 10 (by decide) rfl rfl).2.1⟩

/-- A long position at 30 percent drawdown: high watermark 100, current
price 70, value 70 dollars. -/
def pos_dd30 : Position :=
  { symbol := "AAA/USDT".data, side := "long".data, amount := 1,
    entry_price := 100, current_price := 70, unrealized_pnl := 0,
    realized_pnl := 0, entry_time := some 0, max_price := 100, min_price := 70 }

/-- A long position at exactly 25 percent drawdown: high watermark 100,
current price 75, value 75 dollars. -/
def pos_dd25 : Position :=
  { symbol := "BBB/USDT".data, side := "long".data, amount := 1,
    entry_price := 100, current_price := 75, unrealized_pnl := 0,
    realized_pnl := 0, entry_time := some 0, max_price := 100, min_price := 75 }

/-- A freshly refreshed tracker holding the two drawdown test positions
(the refresh at time 10 makes the next `update_positions` call within the
rate-limit window a no-op, so the state below is also the post-refresh
state). -/
def st_c2 : TrackerState :=
  { positions := [("AAA/USDT".data, pos_dd30), ("BBB/USDT".data, pos_dd25)],
    closed_positions := [], last_update := some 10 }

/-- Claim C2: after refreshing the tracker, `check_drawdown_limits`
returns exactly the symbols of active non-dust positions whose
`drawdown_percentage` strictly exceeds `max_drawdown`; with
`max_drawdown = 1/4`, the position at 30 percent drawdown is returned and
the position at exactly 25 percent drawdown is not. -/
theorem check_drawdown_limits_spec :
    (∀ (st : TrackerState) (ex : ExchangeView) (now : ℕ) (md : ℚ) (s : Str),
       s ∈ check_drawdown_limits st ex now md ↔
         ∃ p, p ∈ get_all_positions (update_positions st ex now) ∧
              md < p.current_drawdown_percentage ∧ p.symbol = s) ∧
    "AAA/USDT".data ∈ check_drawdown_limits st_c2 ex_c1 10 (1/4) ∧
    "BBB/USDT".data ∉ check_drawdown_limits st_c2 ex_c1 10 (1/4) := by
  have hnoop : update_positions st_c2 ex_c1 10 = st_c2 := by
    rw [update_positions, if_neg (by decide)]
  have hlow : strLower ("long".data) = "long".data := by decide
  have heval : check_drawdown_limits st_c2 ex_c1 10 (1/4) = ["AAA/USDT".data] := by
    simp only [check_drawdown_limits, hnoop]
    norm_num [get_all_positions, st_c2, pos_dd30, pos_dd25,
      Position.current_drawdown_percentage, hlow, List.filter, List.map]
  refine ⟨fun st ex now md s => ?_, ?_, ?_⟩
  · simp [check_drawdown_limits, List.mem_map, List.mem_filter, and_assoc]
  · rw [heval]; exact List.mem_singleton.mpr rfl
  · rw [heval]; decide

/-- The live BTC futures position reported by the exchange: one contract
at mark price 50000, notional 50000 dollars. -/
def fut_btc : FuturesPos :=
  { symbol := "BTC/USDT".data, contracts := some 1, entryPrice := 50000,
    markPrice := some 50000, side := "long".data, unrealizedPnl := 0,
    notional := 50000 }

/-- The same exposure as tracked by the position tracker. -/
def pos_btc : Position :=
  { symbol := "BTC/USDT".data, side := "long".data, amount := 1,
    entry_price := 50000, current_price := 50000, unrealized_pnl := 0,
    realized_pnl := 0, entry_time := some 0, max_price := 50000,
    min_price := 50000 }

/-- A tracker holding the live BTC position. -/
def st_c3 : TrackerState :=
  { positions := [("BTC/USDT".data, pos_btc)],
    closed_positions := [], last_update := some 10 }

/-- An exchange reporting exactly that one open futures position. -/
def ex_c3 : ExchangeView :=
  { has_fetch_positions := true, fetch_positions_res := some [fut_btc],
    fetch_balance_res := some [], ticker_last := fun _ => none,
    entry_from_trades := fun _ _ => 0 }

/-- A buy signal for the already-held symbol. -/
def sig_buy_btc : Signal :=
  { symbol := "BTC/USDT".data, timestamp := 0, signal_type := "buy".data,
    price := 50000, strategy_name := "ma_crossover".data,
    params := { market_type := none, leverage := none }, strength := 1 }

/-- A close signal for the same symbol. -/
def sig_close_btc : Signal :=
  { sig_buy_btc with signal_type := "close".data }

/-- Claim C3, evaluation of the code at the failing input: with a live
non-dust position on `BTC/USDT` (visible through the tracker's dust
filter) and `max_open_trades = 4`, `validate_signal` ACCEPTS a buy signal
for that same symbol — `basic_risk_manager.py` lines 41-59 only compare
the total number of open positions to `max_open_trades` and never check
the signal's own symbol — while a close signal is always accepted, as
the claim states. -/
theorem validate_signal_no_pyramiding_check :
    pos_btc ∈ get_all_positions st_c3 ∧
    pos_btc.symbol = sig_buy_btc.symbol ∧
    validate_signal ex_c3 4 sig_buy_btc = (true, "Signal validated".data) ∧
    validate_signal ex_c3 4 sig_close_btc
      = (true, "Close signals are always valid".data) := by
  refine ⟨?_, rfl, ?_, by decide⟩
  · norm_num [get_all_positions, st_c3, pos_btc]
  · norm_num [validate_signal, ex_c3, fut_btc, sig_buy_btc,
      List.filter, List.all]
    decide

/-- Claim C8: with a successfully fetched balance, a signal symbol of the
form `base/quote`, and a positive free quote balance `B`,
`calculate_position_size` returns
`(B / max(1, max_open_trades - k)) / signal.price`, where `k` is the
number of active non-dust positions counted by the code (spot balances
worth more than one dollar plus futures positions with notional above one
dollar), multiplied by the declared leverage when the signal is a futures
signal with a leverage parameter. -/
theorem calculate_position_size_equal_division (ex : ExchangeView)
    (max_open_trades : ℕ) (signal : Signal) (bal : List (Str × BalanceEntry))
    (b quote : Str) (rest : List Str)
    (hbal : ex.fetch_balance_res = some bal)
    (hsym : splitOnC '/' signal.symbol = b :: quote :: rest)
    (havail : 0 < ((lookupD quote bal).map (fun d => d.free.getD 0)).getD 0) :
    calculate_position_size ex max_open_trades signal
      = (if signal.params.market_type.getD ("spot".data) = "futures".data ∧
            signal.params.leverage.isSome
         then signal.params.leverage.getD 1 else 1) *
        ((((lookupD quote bal).map (fun d => d.free.getD 0)).getD 0
            / ((max 1 (max_open_trades - count_active ex bal quote) : ℕ) : ℚ))
          / signal.price) := by
  simp only [calculate_position_size, hbal, hsym]
  rw [if_neg (not_le.mpr havail)]
  split_ifs <;> ring

/-- The balance used to witness the sizing formula: 1000 free USDT and
one BTC. -/
def bal_c8 : List (Str × BalanceEntry) :=
  [("USDT".data, { free := some 1000 }), ("BTC".data, { free := some 1 })]

/-- A spot-only exchange holding `bal_c8`, quoting BTC at 50000 (so the
BTC balance counts as one active non-dust position). -/
def ex_c8 : ExchangeView :=
  { has_fetch_positions := false, fetch_positions_res := none,
    fetch_balance_res := some bal_c8,
    ticker_last := fun s => if s = "BTC/USDT".data then some 50000 else none,
    entry_from_trades := fun _ _ => 0 }

/-- A spot buy signal for `ETH/USDT` at price 2. -/
def sig_c8 : Signal :=
  { symbol := "ETH/USDT".data, timestamp := 0, signal_type := "buy".data,
    price := 2, strategy_name := "ma_crossover".data,
    params := { market_type := none, leverage := none }, strength := 1 }

/-- Witness: with `available_balance = 1000`, `max_open_trades = 4` and
one active non-dust position, the quote allocation is `1000/3`, so the
returned size is `(1000/3)/2` at signal price 2. -/
theorem calculate_position_size_equal_division_witness :
    (0 : ℚ) < 1000 ∧
    calculate_position_size ex_c8 4 sig_c8 = (1000 / 3) / 2 := by
  have h := calculate_position_size_equal_division ex_c8 4 sig_c8 bal_c8
    ("ETH".data) ("USDT".data) [] rfl (by decide) (by decide)
  refine ⟨by norm_num, ?_⟩
  rw [h]
  norm_num [bal_c8, lookupD, count_active, count_spot_active, countSpotStep,
    ex_c8, sig_c8, List.foldl]

end TradingBot
